import Mathlib

/-!
Shallow embedding of the `coreos-metadata` tool (src/src/lib.rs and
src/src/bin/coreos-metadata.rs): the provider dispatch function
`fetch_metadata`, the error model of the `errors` module, the kernel
command-line parsing of `get_oem`, and the orchestration in `init`/`run`.

Effectful external operations (the provider constructors and output writers
living in the crate's `providers` module, and file I/O) are abstracted into
an `Oracle` of results plus an explicit trace of `Event`s recording which
external operations were invoked; the control flow of `fetch_metadata`,
`get_oem`, `init` and `run` is translated directly from the source.
-/

namespace CoreosMetadata

/-- The error kinds declared by the `errors` module in src/src/lib.rs
(lines 58-79): `error_chain!` always provides `Msg`, the `links` block
provides `PublicKey` and `AuthorizedKeys`, the `foreign_links` block provides
`Log`, `XmlDeserialize` (under the azure feature), `Base64Decode`, `Io`,
`Reqwest` and `Hyper`, and the `errors` block declares the single custom kind
`UnknownProvider`. Payloads of foreign errors are abstracted to strings. -/
inductive ErrorKind where
  | Msg (s : String)
  | UnknownProvider (p : String)
  | PublicKey (s : String)
  | AuthorizedKeys (s : String)
  | Log (s : String)
  | XmlDeserialize (s : String)
  | Base64Decode (s : String)
  | IoError (s : String)
  | Reqwest (s : String)
  | Hyper (s : String)
deriving DecidableEq, Repr

/-- The name of each declared error kind, as written in the source. -/
def errorKindName : ErrorKind → String
  | .Msg _ => "Msg"
  | .UnknownProvider _ => "UnknownProvider"
  | .PublicKey _ => "PublicKey"
  | .AuthorizedKeys _ => "AuthorizedKeys"
  | .Log _ => "Log"
  | .XmlDeserialize _ => "XmlDeserialize"
  | .Base64Decode _ => "Base64Decode"
  | .IoError _ => "Io"
  | .Reqwest _ => "Reqwest"
  | .Hyper _ => "Hyper"

/-- The names of all error kinds declared by the `errors` module. -/
def declaredErrorKindNames : List String :=
  ["Msg", "UnknownProvider", "PublicKey", "AuthorizedKeys", "Log",
   "XmlDeserialize", "Base64Decode", "Io", "Reqwest", "Hyper"]

/-- An `error_chain` error: a root kind together with the stack of context
messages wrapped around it by `chain_err` (innermost context first). -/
structure Error where
  root : ErrorKind
  contexts : List String
deriving DecidableEq, Repr

/-- `chain_err`: wraps an error with one more context message, preserving
everything beneath (chained, not replaced). -/
def chainErr (label : String) (e : Error) : Error :=
  ⟨e.root, e.contexts ++ [label]⟩

/-- `bail!(msg)` / `format!(msg).into()`: a fresh `Msg` error with no
context chain. -/
def msgError (s : String) : Error := ⟨.Msg s, []⟩

/-- The error produced by `bail!("Must set either --provider or --cmdline")`
at src/src/bin/coreos-metadata.rs line 88. -/
def missingProviderError : Error :=
  msgError "Must set either --provider or --cmdline"

/-- The nine provider variants dispatched to by `fetch_metadata`
(src/src/lib.rs lines 93-102), one per constructor called there. -/
inductive ProviderKind where
  | azure
  | cloudstackNetwork
  | cloudstackConfigDrive
  | digitalOcean
  | ec2
  | gce
  | openstackMetadata
  | packet
  | vagrantVirtualbox
deriving DecidableEq, Repr

/-- The nine provider name strings accepted by `fetch_metadata`. -/
def providerNames : List String :=
  ["azure", "cloudstack-metadata", "cloudstack-configdrive", "digitalocean",
   "ec2", "gce", "openstack-metadata", "packet", "vagrant-virtualbox"]

/-- The name-to-variant table of the `match` in `fetch_metadata`
(src/src/lib.rs lines 93-102), in source order. -/
def providerTable : List (String × ProviderKind) :=
  [("azure", .azure),
   ("cloudstack-metadata", .cloudstackNetwork),
   ("cloudstack-configdrive", .cloudstackConfigDrive),
   ("digitalocean", .digitalOcean),
   ("ec2", .ec2),
   ("gce", .gce),
   ("openstack-metadata", .openstackMetadata),
   ("packet", .packet),
   ("vagrant-virtualbox", .vagrantVirtualbox)]

/-- The pure dispatch of the `match provider` in `fetch_metadata`
(src/src/lib.rs lines 93-104): which provider constructor is selected for a
given name, `none` for the default arm. -/
def fetchMetadataDispatch (provider : String) : Option ProviderKind :=
  if provider = "azure" then some .azure
  else if provider = "cloudstack-metadata" then some .cloudstackNetwork
  else if provider = "cloudstack-configdrive" then some .cloudstackConfigDrive
  else if provider = "digitalocean" then some .digitalOcean
  else if provider = "ec2" then some .ec2
  else if provider = "gce" then some .gce
  else if provider = "openstack-metadata" then some .openstackMetadata
  else if provider = "packet" then some .packet
  else if provider = "vagrant-virtualbox" then some .vagrantVirtualbox
  else none

/-- `CMDLINE_OEM_FLAG` from src/src/bin/coreos-metadata.rs line 41. -/
def CMDLINE_OEM_FLAG : String := "coreos.oem.id"

/-- `CMDLINE_PATH` from src/src/bin/coreos-metadata.rs line 40. -/
def CMDLINE_PATH : String := "/proc/cmdline"

/-- An apostrophe, kept out of string literals. -/
def apos : String := String.mk [Char.ofNat 39]

/-- The message of the error returned by `get_oem` when no `coreos.oem.id`
token is present: `Couldn't find 'coreos.oem.id' flag in cmdline file
(/proc/cmdline)` (src/src/bin/coreos-metadata.rs line 168). -/
def missingOemMessage : String :=
  "Couldn" ++ apos ++ "t find " ++ apos ++ CMDLINE_OEM_FLAG ++ apos ++
    " flag in cmdline file (" ++ CMDLINE_PATH ++ ")"

/-- Rust `str::split(c)` on a character list: the pieces between occurrences
of `c`, empty pieces preserved, one empty piece for the empty input. -/
def splitChar (c : Char) : List Char → List (List Char)
  | [] => [[]]
  | x :: xs =>
      if x = c then
        [] :: splitChar c xs
      else
        match splitChar c xs with
        | r :: rs => (x :: r) :: rs
        | [] => [[x]]

/-- Rust `str::split(c)` on a string. -/
def rustSplit (c : Char) (s : String) : List String :=
  (splitChar c s.data).map String.mk

/-- The space-then-equals tokenization of `get_oem`
(src/src/bin/coreos-metadata.rs lines 157-159): split the contents on every
space character, then split each element on every equals sign. -/
def cmdlineTokens (contents : String) : List (List String) :=
  (rustSplit ' ' contents).map (rustSplit '=')

/-- The search loop of `get_oem` (src/src/bin/coreos-metadata.rs lines
162-168): return the second field of the first token whose length exceeds one
and whose first field is `coreos.oem.id`, else the not-found error.
A token `k :: v :: rest` is exactly a token with `p.len() > 1`, first field
`k` and second field `v`. -/
def findOemFlag : List (List String) → Except Error String
  | [] => .error (msgError missingOemMessage)
  | (k :: v :: _) :: rest =>
      if k = CMDLINE_OEM_FLAG then .ok v else findOemFlag rest
  | _ :: rest => findOemFlag rest

/-- The pure core of `get_oem` (src/src/bin/coreos-metadata.rs lines
156-168), as a function of the contents read from the cmdline file. -/
def getOemFromContents (contents : String) : Except Error String :=
  findOemFlag (cmdlineTokens contents)

/-- The spec-side description of the derived value: the second
equals-separated field of the first space-separated token whose first field
equals `coreos.oem.id` (and which has at least two fields), `none` when no
such token exists. Stated from the spec for comparison with
`getOemFromContents`. -/
def oemValueSpec (contents : String) : Option String :=
  ((cmdlineTokens contents).find?
      (fun p => decide (1 < p.length) && (p.head? == some CMDLINE_OEM_FLAG))).bind
    (fun p => p[1]?)

/-- The `Config` struct of src/src/bin/coreos-metadata.rs lines 43-64, after
command-line parsing (argument parsing itself is external). -/
structure Config where
  provider : Option String
  attributes_file : Option String
  ssh_keys_user : Option String
  hostname_file : Option String
  network_units_dir : Option String
  cmdline : Bool
deriving DecidableEq, Repr

/-- Modelled from the spec: the results of the external effectful operations
the orchestrator invokes — reading the cmdline file, the provider
constructors of the crate's `providers` module (not present under src/), and
the four per-provider output writers. Each field fixes the outcome the
environment would produce for that operation; provider instances carry no
data visible to the orchestrator, so construction and writes are
represented by their success or error alone. -/
structure Oracle where
  cmdlineContents : Except Error String
  newProvider : ProviderKind → Except Error Unit
  writeAttributesResult : String → Except Error Unit
  writeSshKeysResult : String → Except Error Unit
  writeHostnameResult : String → Except Error Unit
  writeNetworkUnitsResult : String → Except Error Unit

/-- One invocation of an external effectful operation, recorded in order. -/
inductive Event where
  | readCmdline
  | constructProvider (k : ProviderKind)
  | writeAttributes (path : String)
  | writeSshKeys (user : String)
  | writeHostname (path : String)
  | writeNetworkUnits (dir : String)
deriving DecidableEq, Repr

/-- `fetch_metadata` (src/src/lib.rs lines 92-105): dispatch on the provider
name; a recognized name invokes that provider constructor (whose result the
oracle supplies, errors passing through `box_result!` unchanged); the
default arm returns `UnknownProvider` carrying the given name and invokes
nothing. -/
def fetch_metadata (o : Oracle) (provider : String) :
    Except Error Unit × List Event :=
  match fetchMetadataDispatch provider with
  | some k => (o.newProvider k, [Event.constructProvider k])
  | none => (.error ⟨.UnknownProvider provider, []⟩, [])

/-- `get_oem` (src/src/bin/coreos-metadata.rs lines 146-169): read the
cmdline file (open/read errors, already wrapped with the file path by
`chain_err` there, are supplied by the oracle) and parse its contents. -/
def get_oem (o : Oracle) : Except Error String × List Event :=
  (match o.cmdlineContents with
   | .error e => .error e
   | .ok contents => getOemFromContents contents,
   [Event.readCmdline])

/-- `init` (src/src/bin/coreos-metadata.rs lines 116-144), after the
external argument parsing produced `cfg`: when no provider is set and the
cmdline flag is, derive the provider from the cmdline file; otherwise the
config passes through untouched. -/
def init (cfg : Config) (o : Oracle) : Except Error Config × List Event :=
  if cfg.provider.isNone && cfg.cmdline then
    match get_oem o with
    | (.ok oem, tr) => (.ok { cfg with provider := some oem }, tr)
    | (.error e, tr) => (.error e, tr)
  else
    (.ok cfg, [])

/-- One `config.target.map_or(Ok(()), |x| metadata.write_x(x))
.chain_err(|| label)?` step of `run`: an omitted target is `Ok(())` without
invoking the writer; a configured target invokes the writer and wraps its
failure with the stage label. -/
def writerStep (target : Option String) (w : String → Except Error Unit)
    (ev : String → Event) (label : String) : Except Error Unit × List Event :=
  match target with
  | none => (.ok (), [])
  | some x =>
      match w x with
      | .ok _ => (.ok (), [ev x])
      | .error e => (.error (chainErr label e), [ev x])

/-- Sequencing with `?`: an error in the first step short-circuits and the
second step is never run. -/
def andThen (a : Except Error Unit × List Event)
    (b : Unit → Except Error Unit × List Event) :
    Except Error Unit × List Event :=
  match a with
  | (.ok _, tr) =>
      match b () with
      | (r, tr2) => (r, tr ++ tr2)
  | (.error e, tr) => (.error e, tr)

/-- The four writer statements of `run`
(src/src/bin/coreos-metadata.rs lines 91-109), in source order, each
followed by `?`. -/
def runWriters (config : Config) (o : Oracle) :
    Except Error Unit × List Event :=
  andThen (writerStep config.attributes_file o.writeAttributesResult
      Event.writeAttributes "writing metadata attributes") (fun _ =>
    andThen (writerStep config.ssh_keys_user o.writeSshKeysResult
        Event.writeSshKeys "writing ssh keys") (fun _ =>
      andThen (writerStep config.hostname_file o.writeHostnameResult
          Event.writeHostname "writing hostname") (fun _ =>
        writerStep config.network_units_dir o.writeNetworkUnitsResult
          Event.writeNetworkUnits "writing network units")))

/-- `run` (src/src/bin/coreos-metadata.rs lines 68-114), with logging setup
omitted: initialize (errors wrapped with "initialization"), require a
provider (else `bail!`), fetch metadata (errors wrapped with "fetching
metadata from provider"), then the four writer steps. -/
def run (cfg : Config) (o : Oracle) : Except Error Unit × List Event :=
  match init cfg o with
  | (.error e, tr) => (.error (chainErr "initialization" e), tr)
  | (.ok config, tr0) =>
    match config.provider with
    | none => (.error missingProviderError, tr0)
    | some provider =>
      match fetch_metadata o provider with
      | (.error e, trF) =>
          (.error (chainErr "fetching metadata from provider" e), tr0 ++ trF)
      | (.ok _, trF) =>
          match runWriters config o with
          | (r, trW) => (r, tr0 ++ trF ++ trW)

/-- The six stage labels `run` wraps errors with. -/
def stageLabels : List String :=
  ["initialization", "fetching metadata from provider",
   "writing metadata attributes", "writing ssh keys", "writing hostname",
   "writing network units"]

/-- Whether the outermost context of an error is one of the six stage
labels. -/
def wrappedWithStage (e : Error) : Bool :=
  match e.contexts.getLast? with
  | some l => stageLabels.contains l
  | none => false

/-- A writer event other than the attributes write. -/
def isLaterWriterEvent : Event → Bool
  | .writeSshKeys _ => true
  | .writeHostname _ => true
  | .writeNetworkUnits _ => true
  | _ => false

/-- Any of the four writer events. -/
def isWriterEvent : Event → Bool
  | .writeAttributes _ => true
  | e => isLaterWriterEvent e

/-- A writer event of a writer later than the ssh-keys write in the fixed
source order attributes, ssh keys, hostname, network units. -/
def isWriterEventAfterSsh : Event → Bool
  | .writeHostname _ => true
  | .writeNetworkUnits _ => true
  | _ => false

/-- A writer event of a writer later than the hostname write in the fixed
source order. -/
def isWriterEventAfterHostname : Event → Bool
  | .writeNetworkUnits _ => true
  | _ => false

/-- The write event a target contributes to the trace when its writer
succeeds: one event for a configured target, none for an omitted one. -/
def targetEvent (t : Option String) (ev : String → Event) : List Event :=
  match t with
  | some x => [ev x]
  | none => []

/-- An environment in which every external operation succeeds: the cmdline
file is empty, construction and all writes return `Ok`. -/
def okOracle : Oracle :=
  ⟨.ok "", fun _ => .ok (), fun _ => .ok (), fun _ => .ok (),
   fun _ => .ok (), fun _ => .ok ()⟩

/-- The underlying error the failing attributes writer reports below. -/
def attrWriteFailure : Error := ⟨.IoError "Permission denied", []⟩

/-- The underlying error the failing ssh-keys writer reports below. -/
def sshWriteFailure : Error := ⟨.IoError "no such user", []⟩

/-- An environment in which the attributes and ssh-keys writers both fail
while everything else succeeds. -/
def failingWritersOracle : Oracle :=
  ⟨.ok "", fun _ => .ok (),
   fun _ => .error attrWriteFailure,
   fun _ => .error sshWriteFailure,
   fun _ => .ok (), fun _ => .ok ()⟩

/-- The underlying error the failing hostname writer reports below. -/
def hostnameWriteFailure : Error := ⟨.IoError "read-only file system", []⟩

/-- The underlying error the failing network-units writer reports below. -/
def networkWriteFailure : Error := ⟨.IoError "not a directory", []⟩

/-- An environment in which only the ssh-keys writer fails. -/
def failingSshOracle : Oracle :=
  ⟨.ok "", fun _ => .ok (), fun _ => .ok (),
   fun _ => .error sshWriteFailure,
   fun _ => .ok (), fun _ => .ok ()⟩

/-- An environment in which only the hostname writer fails. -/
def failingHostnameOracle : Oracle :=
  ⟨.ok "", fun _ => .ok (), fun _ => .ok (), fun _ => .ok (),
   fun _ => .error hostnameWriteFailure,
   fun _ => .ok ()⟩

/-- An environment in which only the network-units writer fails. -/
def failingNetworkOracle : Oracle :=
  ⟨.ok "", fun _ => .ok (), fun _ => .ok (), fun _ => .ok (),
   fun _ => .ok (),
   fun _ => .error networkWriteFailure⟩

/-- A configuration selecting the ec2 provider with all four output
targets. -/
def configAllTargets : Config :=
  ⟨some "ec2", some "/run/metadata/coreos", some "core",
   some "/etc/hostname", some "/run/systemd/network", false⟩

/-- A configuration selecting the ec2 provider with two output targets:
an attributes file and an ssh-keys user. -/
def configAttrSsh : Config :=
  ⟨some "ec2", some "/run/metadata/coreos", some "core", none, none, false⟩

/-- A configuration with no provider, no cmdline flag and no targets. -/
def configEmpty : Config := ⟨none, none, none, none, none, false⟩

/-- A configuration selecting the ec2 provider with no output targets. -/
def configProvOnly : Config := ⟨some "ec2", none, none, none, none, false⟩

/-- A configuration with an explicit provider and the cmdline flag set. -/
def configCmdlineBoth : Config := ⟨some "gce", none, none, none, none, true⟩

/-- A configuration with no explicit provider and the cmdline flag set. -/
def configCmdlineOnly : Config := ⟨none, none, none, none, none, true⟩

/-- The underlying error the failing provider constructor reports below. -/
def fetchFailure : Error := ⟨.Hyper "connection refused", []⟩

/-- An environment in which every provider constructor fails while
everything else succeeds. -/
def failingFetchOracle : Oracle :=
  ⟨.ok "", fun _ => .error fetchFailure, fun _ => .ok (), fun _ => .ok (),
   fun _ => .ok (), fun _ => .ok ()⟩

lemma dispatch_none_of_not_mem (s : String) (h : s ∉ providerNames) :
    fetchMetadataDispatch s = none := by
  simp [providerNames] at h
  obtain ⟨h1, h2, h3, h4, h5, h6, h7, h8, h9⟩ := h
  simp [fetchMetadataDispatch, h1, h2, h3, h4, h5, h6, h7, h8, h9]

lemma mem_providerNames_of_dispatch_ne_none (s : String)
    (h : fetchMetadataDispatch s ≠ none) : s ∈ providerNames := by
  by_contra hc
  exact h (dispatch_none_of_not_mem s hc)

/-- Claim C2 (confirmed): for any name outside the nine supported provider
names, `fetch_metadata` returns `UnknownProvider` carrying exactly that name,
with no context chain, and invokes no provider constructor (empty event
trace, hence no network I/O). -/
theorem fetch_metadata_unknown_provider (o : Oracle) (s : String)
    (h : s ∉ providerNames) :
    fetch_metadata o s = (.error ⟨.UnknownProvider s, []⟩, []) := by
  simp [fetch_metadata, dispatch_none_of_not_mem s h]

/-- Witness for C2 at the concrete unknown name "digital-ocean". -/
theorem fetch_metadata_unknown_provider_witness :
    "digital-ocean" ∉ providerNames ∧
    fetch_metadata okOracle "digital-ocean" =
      (.error ⟨.UnknownProvider "digital-ocean", []⟩, []) :=
  ⟨by decide, fetch_metadata_unknown_provider okOracle "digital-ocean" (by decide)⟩

/-- Claim C3 (confirmed): the dispatch of `fetch_metadata` maps each of the
nine supported names to its own distinct provider variant (the variant list
has no duplicates), and dispatches nothing for any other name: there is no
fallback provider. -/
theorem fetch_metadata_dispatch_table :
    (∀ p ∈ providerTable, fetchMetadataDispatch p.1 = some p.2) ∧
    (providerTable.map Prod.snd).Nodup ∧
    (∀ s, fetchMetadataDispatch s ≠ none → s ∈ providerTable.map Prod.fst) := by
  refine ⟨by decide, by decide, ?_⟩
  intro s h
  have hmem := mem_providerNames_of_dispatch_ne_none s h
  simp only [providerNames] at hmem
  simpa [providerTable] using hmem

/-- Witness for C3 at the concrete names "ec2" and "gce". -/
theorem fetch_metadata_dispatch_table_witness :
    fetchMetadataDispatch "ec2" = some ProviderKind.ec2 ∧
    "gce" ∈ providerTable.map Prod.fst :=
  ⟨fetch_metadata_dispatch_table.1 ("ec2", ProviderKind.ec2) (by decide),
   fetch_metadata_dispatch_table.2.2 "gce" (by decide)⟩

/-- Counterexample to claim C8: the `errors` module of src/src/lib.rs
declares no `UnreachableProvider` and no `UnsupportedEnvironment` kind; the
only custom kind it declares is `UnknownProvider`. -/
theorem errors_no_unreachable_kind_counterexample :
    "UnreachableProvider" ∉ declaredErrorKindNames ∧
    "UnsupportedEnvironment" ∉ declaredErrorKindNames ∧
    "UnknownProvider" ∈ declaredErrorKindNames := by
  decide

/-- Claim C8 (corrected): every error kind of the crate's error type is one
of the ten kinds declared in the `errors` module (`Msg`, `UnknownProvider`,
the two links and the six foreign links); in particular no kind is named
`UnreachableProvider` or `UnsupportedEnvironment`, so provider construction
failures are not distinguishable through such kinds. -/
theorem error_kinds_declared (k : ErrorKind) :
    errorKindName k ∈ declaredErrorKindNames ∧
    errorKindName k ≠ "UnreachableProvider" ∧
    errorKindName k ≠ "UnsupportedEnvironment" := by
  cases k <;> simp only [errorKindName] <;> exact ⟨by decide, by decide, by decide⟩

/-- Claim C4 (confirmed): with no provider name and the cmdline flag unset,
`run` fails with the configuration error from `bail!` and an empty event
trace: no cmdline read, no provider construction, no fetch, no write — no
I/O at all. -/
theorem run_requires_provider (cfg : Config) (o : Oracle)
    (h1 : cfg.provider = none) (h2 : cfg.cmdline = false) :
    run cfg o = (.error missingProviderError, []) := by
  simp [run, init, h1, h2]

/-- Witness for C4 at the empty configuration. -/
theorem run_requires_provider_witness :
    configEmpty.provider = none ∧ configEmpty.cmdline = false ∧
    run configEmpty okOracle = (.error missingProviderError, []) :=
  ⟨rfl, rfl, run_requires_provider configEmpty okOracle rfl rfl⟩

lemma findOemFlag_error (ps : List (List String))
    (h : ∀ p ∈ ps, ¬(1 < p.length ∧ p.head? = some CMDLINE_OEM_FLAG)) :
    findOemFlag ps = .error (msgError missingOemMessage) := by
  induction ps with
  | nil => rfl
  | cons p rest ih =>
    have hrest : ∀ q ∈ rest, ¬(1 < q.length ∧ q.head? = some CMDLINE_OEM_FLAG) :=
      fun q hq => h q (List.mem_cons_of_mem p hq)
    rcases p with _ | ⟨k, _ | ⟨v, t⟩⟩
    · simpa [findOemFlag] using ih hrest
    · simpa [findOemFlag] using ih hrest
    · have hp := h (k :: v :: t) (List.mem_cons_self _ _)
      have hk : k ≠ CMDLINE_OEM_FLAG := by
        intro hke
        exact hp ⟨by simp [List.length_cons], by simp [hke]⟩
      simpa [findOemFlag, hk] using ih hrest

/-- Claim C7 (confirmed): the cmdline contents
`BOOT_IMAGE=/vmlinuz coreos.oem.id=ec2 console=ttyS0` derive exactly the
provider name "ec2", and contents with no `coreos.oem.id` token (no
space-separated token with at least two equals-separated fields whose first
field is the flag) derive the not-found error. -/
theorem get_oem_derivation :
    getOemFromContents "BOOT_IMAGE=/vmlinuz coreos.oem.id=ec2 console=ttyS0" =
      .ok "ec2" ∧
    ∀ contents, (∀ p ∈ cmdlineTokens contents,
        ¬(1 < p.length ∧ p.head? = some CMDLINE_OEM_FLAG)) →
      getOemFromContents contents = .error (msgError missingOemMessage) := by
  refine ⟨rfl, ?_⟩
  intro contents h
  exact findOemFlag_error _ h

/-- Witness for C7 at contents with no coreos.oem.id key. -/
theorem get_oem_derivation_witness :
    (∀ p ∈ cmdlineTokens "foo=bar baz",
        ¬(1 < p.length ∧ p.head? = some CMDLINE_OEM_FLAG)) ∧
    getOemFromContents "foo=bar baz" = .error (msgError missingOemMessage) :=
  ⟨by decide, get_oem_derivation.2 "foo=bar baz" (by decide)⟩

lemma findOemFlag_eq_spec (ps : List (List String)) :
    findOemFlag ps =
      match (ps.find? (fun p =>
          decide (1 < p.length) && (p.head? == some CMDLINE_OEM_FLAG))).bind
          (fun p => p[1]?) with
      | some v => .ok v
      | none => .error (msgError missingOemMessage) := by
  induction ps with
  | nil => rfl
  | cons p rest ih =>
    rcases p with _ | ⟨k, _ | ⟨v, t⟩⟩
    · simpa [findOemFlag, List.find?_cons] using ih
    · simpa [findOemFlag, List.find?_cons] using ih
    · by_cases hk : k = CMDLINE_OEM_FLAG
      · subst hk
        simp [findOemFlag, List.find?_cons]
      · have hbeq : (k == CMDLINE_OEM_FLAG) = false := beq_eq_false_iff_ne.mpr hk
        simpa [findOemFlag, List.find?_cons, hk, hbeq] using ih

/-- Claim C10 (confirmed): the derived name is exactly the second
equals-separated field of the first space-separated token with first field
`coreos.oem.id`, with no trimming: `coreos.oem.id=a=b` yields "a",
`coreos.oem.id=` yields the empty string, and a trailing newline stays part
of the value. -/
theorem get_oem_value_exact :
    (∀ contents, getOemFromContents contents =
        match oemValueSpec contents with
        | some v => .ok v
        | none => .error (msgError missingOemMessage)) ∧
    getOemFromContents "coreos.oem.id=a=b" = .ok "a" ∧
    getOemFromContents "coreos.oem.id=" = .ok "" ∧
    getOemFromContents "BOOT_IMAGE=/vmlinuz coreos.oem.id=ec2\n" = .ok "ec2\n" := by
  refine ⟨?_, rfl, rfl, rfl⟩
  intro contents
  exact findOemFlag_eq_spec (cmdlineTokens contents)

lemma wrappedWithStage_chainErr (l : String) (e : Error)
    (h : stageLabels.contains l = true) :
    wrappedWithStage (chainErr l e) = true := by
  simp only [wrappedWithStage, chainErr, List.getLast?_concat]
  exact h

lemma writerStep_error (t : Option String) (w : String → Except Error Unit)
    (ev : String → Event) (l : String) (e : Error)
    (h : (writerStep t w ev l).1 = .error e) :
    ∃ e0, e = chainErr l e0 := by
  cases t with
  | none => simp [writerStep] at h
  | some x =>
    cases hw : w x with
    | ok u => rw [writerStep, hw] at h; simp at h
    | error e0 =>
      rw [writerStep, hw] at h
      simp at h
      exact ⟨e0, h.symm⟩

lemma writerStep_mem (t : Option String) (w : String → Except Error Unit)
    (ev : String → Event) (l : String) (e : Event)
    (h : e ∈ (writerStep t w ev l).2) :
    ∃ x, t = some x ∧ e = ev x := by
  cases t with
  | none => simp [writerStep] at h
  | some x =>
    refine ⟨x, rfl, ?_⟩
    cases hw : w x with
    | ok u => rw [writerStep, hw] at h; simpa using h
    | error e0 => rw [writerStep, hw] at h; simpa using h

lemma andThen_error (a : Except Error Unit × List Event)
    (b : Unit → Except Error Unit × List Event) (e : Error)
    (h : (andThen a b).1 = .error e) :
    a.1 = .error e ∨ (b ()).1 = .error e := by
  rcases a with ⟨r, tr⟩
  cases r with
  | ok u =>
    right
    rcases hb : b () with ⟨rb, trb⟩
    rw [andThen] at h
    rw [hb] at h
    simp at h
    simpa using h
  | error e1 =>
    left
    simpa [andThen] using h

lemma andThen_mem (a : Except Error Unit × List Event)
    (b : Unit → Except Error Unit × List Event) (e : Event)
    (h : e ∈ (andThen a b).2) :
    e ∈ a.2 ∨ e ∈ (b ()).2 := by
  rcases a with ⟨r, tr⟩
  cases r with
  | ok u =>
    rcases hb : b () with ⟨rb, trb⟩
    rw [andThen] at h
    rw [hb] at h
    simp at h
    rcases h with h | h
    · exact Or.inl h
    · right
      simpa using h
  | error e1 =>
    left
    simpa [andThen] using h

lemma runWriters_error (config : Config) (o : Oracle) (e : Error)
    (h : (runWriters config o).1 = .error e) :
    wrappedWithStage e = true := by
  rw [runWriters] at h
  rcases andThen_error _ _ _ h with h1 | h
  · obtain ⟨e0, he⟩ := writerStep_error _ _ _ _ _ h1
    exact he ▸ wrappedWithStage_chainErr _ e0 (by decide)
  · rcases andThen_error _ _ _ h with h1 | h
    · obtain ⟨e0, he⟩ := writerStep_error _ _ _ _ _ h1
      exact he ▸ wrappedWithStage_chainErr _ e0 (by decide)
    · rcases andThen_error _ _ _ h with h1 | h
      · obtain ⟨e0, he⟩ := writerStep_error _ _ _ _ _ h1
        exact he ▸ wrappedWithStage_chainErr _ e0 (by decide)
      · obtain ⟨e0, he⟩ := writerStep_error _ _ _ _ _ h
        exact he ▸ wrappedWithStage_chainErr _ e0 (by decide)

lemma runWriters_mem (config : Config) (o : Oracle) (e : Event)
    (h : e ∈ (runWriters config o).2) :
    (∃ x, config.attributes_file = some x ∧ e = .writeAttributes x) ∨
    (∃ x, config.ssh_keys_user = some x ∧ e = .writeSshKeys x) ∨
    (∃ x, config.hostname_file = some x ∧ e = .writeHostname x) ∨
    (∃ x, config.network_units_dir = some x ∧ e = .writeNetworkUnits x) := by
  rw [runWriters] at h
  rcases andThen_mem _ _ _ h with h1 | h
  · exact Or.inl (writerStep_mem _ _ _ _ _ h1)
  · rcases andThen_mem _ _ _ h with h1 | h
    · exact Or.inr (Or.inl (writerStep_mem _ _ _ _ _ h1))
    · rcases andThen_mem _ _ _ h with h1 | h
      · exact Or.inr (Or.inr (Or.inl (writerStep_mem _ _ _ _ _ h1)))
      · exact Or.inr (Or.inr (Or.inr (writerStep_mem _ _ _ _ _ h)))

lemma init_of_provider_some (cfg : Config) (o : Oracle) (p : String)
    (hp : cfg.provider = some p) : init cfg o = (.ok cfg, []) := by
  simp [init, hp]

lemma init_trace (cfg : Config) (o : Oracle) :
    (init cfg o).2 = [] ∨ (init cfg o).2 = [Event.readCmdline] := by
  rw [init]
  split
  · rcases hg : get_oem o with ⟨rg, trg⟩
    have htrg : trg = [Event.readCmdline] := by
      rw [get_oem] at hg
      exact (Prod.mk.injEq _ _ _ _ ▸ hg).2.symm ▸ rfl
    cases rg <;> simp [htrg]
  · simp

lemma init_ok_fields (cfg : Config) (o : Oracle) (config : Config)
    (tr : List Event) (h : init cfg o = (.ok config, tr)) :
    config.attributes_file = cfg.attributes_file ∧
    config.ssh_keys_user = cfg.ssh_keys_user ∧
    config.hostname_file = cfg.hostname_file ∧
    config.network_units_dir = cfg.network_units_dir := by
  rw [init] at h
  split at h
  · rcases hg : get_oem o with ⟨rg, trg⟩
    rw [hg] at h
    cases rg with
    | ok oem =>
      simp at h
      obtain ⟨h1, h2⟩ := h
      subst h1
      simp
    | error e => simp at h
  · simp at h
    obtain ⟨h1, h2⟩ := h
    subst h1
    simp

lemma fetch_trace (o : Oracle) (p : String) :
    (fetch_metadata o p).2 = [] ∨
    ∃ k, (fetch_metadata o p).2 = [Event.constructProvider k] := by
  rw [fetch_metadata]
  cases fetchMetadataDispatch p with
  | none => exact Or.inl rfl
  | some k => exact Or.inr ⟨k, rfl⟩

lemma run_eq_of_fetch_ok (cfg : Config) (o : Oracle) (p : String)
    (k : ProviderKind) (hp : cfg.provider = some p)
    (hk : fetchMetadataDispatch p = some k) (hn : o.newProvider k = .ok ()) :
    run cfg o = ((runWriters cfg o).1,
      Event.constructProvider k :: (runWriters cfg o).2) := by
  have hinit := init_of_provider_some cfg o p hp
  rcases hw : runWriters cfg o with ⟨rw, trw⟩
  simp [run, hinit, hp, fetch_metadata, hk, hn, hw]

lemma run_eq_of_fetch_err (cfg : Config) (o : Oracle) (p : String)
    (k : ProviderKind) (e : Error) (hp : cfg.provider = some p)
    (hk : fetchMetadataDispatch p = some k)
    (hn : o.newProvider k = .error e) :
    run cfg o = (.error (chainErr "fetching metadata from provider" e),
      [Event.constructProvider k]) := by
  have hinit := init_of_provider_some cfg o p hp
  simp [run, hinit, hp, fetch_metadata, hk, hn]

lemma run_mem (cfg : Config) (o : Oracle) (e : Event)
    (h : e ∈ (run cfg o).2) :
    e = .readCmdline ∨ (∃ k, e = .constructProvider k) ∨
    (∃ x, cfg.attributes_file = some x ∧ e = .writeAttributes x) ∨
    (∃ x, cfg.ssh_keys_user = some x ∧ e = .writeSshKeys x) ∨
    (∃ x, cfg.hostname_file = some x ∧ e = .writeHostname x) ∨
    (∃ x, cfg.network_units_dir = some x ∧ e = .writeNetworkUnits x) := by
  rw [run] at h
  rcases hinit : init cfg o with ⟨ri, tri⟩
  rw [hinit] at h
  have htri : ∀ ev ∈ tri, ev = Event.readCmdline := by
    have h' := init_trace cfg o
    rw [hinit] at h'
    simp only at h'
    rcases h' with h' | h' <;> subst h' <;> simp
  cases ri with
  | error e1 =>
    simp only at h
    exact Or.inl (htri e h)
  | ok config =>
    have hfields := init_ok_fields cfg o config tri hinit
    cases hcp : config.provider with
    | none =>
      simp [hcp] at h
      exact Or.inl (htri e h)
    | some p =>
      rcases hf : fetch_metadata o p with ⟨rf, trf⟩
      have htrf : ∀ ev ∈ trf, ∃ k, ev = Event.constructProvider k := by
        have h' := fetch_trace o p
        rw [hf] at h'
        simp only at h'
        rcases h' with h' | ⟨k, h'⟩ <;> subst h' <;> simp
      cases rf with
      | error e2 =>
        simp [hcp, hf] at h
        rcases h with h | h
        · exact Or.inl (htri e h)
        · exact Or.inr (Or.inl (htrf e h))
      | ok u =>
        rcases hw : runWriters config o with ⟨rw_, trw⟩
        simp [hcp, hf, hw] at h
        rcases h with h | h | h
        · exact Or.inl (htri e h)
        · exact Or.inr (Or.inl (htrf e h))
        · have hm := runWriters_mem config o e (by rw [hw]; simpa using h)
          obtain ⟨ha, hs, hh, hn⟩ := hfields
          rw [ha, hs, hh, hn] at hm
          exact Or.inr (Or.inr hm)

lemma run_trace_of_provider_some (cfg : Config) (o : Oracle) (p : String)
    (hp : cfg.provider = some p) :
    (run cfg o).2 = (fetch_metadata o p).2 ∨
    (run cfg o).2 = (fetch_metadata o p).2 ++ (runWriters cfg o).2 := by
  have hinit := init_of_provider_some cfg o p hp
  rw [run, hinit]
  rcases hf : fetch_metadata o p with ⟨rf, trf⟩
  cases rf with
  | error e2 =>
    left
    simp [hp, hf]
  | ok u =>
    right
    rcases hw : runWriters cfg o with ⟨rw_, trw⟩
    simp [hp, hf, hw]

/-- Counterexample to claim C1: with both an attributes file and an ssh-keys
user configured and failing writers for both, the run reports only the
attributes failure and the ssh-keys writer is never attempted — writer
failures are not collected. -/
theorem run_does_not_collect_writer_failures_counterexample :
    configAttrSsh.attributes_file = some "/run/metadata/coreos" ∧
    configAttrSsh.ssh_keys_user = some "core" ∧
    (run configAttrSsh failingWritersOracle).1 =
      .error (chainErr "writing metadata attributes" attrWriteFailure) ∧
    Event.writeSshKeys "core" ∉ (run configAttrSsh failingWritersOracle).2 :=
  ⟨rfl, rfl, rfl, by decide⟩

lemma andThen_ok (tr : List Event)
    (b : Unit → Except Error Unit × List Event) :
    andThen (.ok (), tr) b = ((b ()).1, tr ++ (b ()).2) := by
  rcases hb : b () with ⟨rb, trb⟩
  simp [andThen, hb]

lemma andThen_err (e : Error) (tr : List Event)
    (b : Unit → Except Error Unit × List Event) :
    andThen (.error e, tr) b = (.error e, tr) := rfl

lemma writerStep_ok_of (t : Option String) (w : String → Except Error Unit)
    (ev : String → Event) (l : String)
    (h : ∀ y, t = some y → w y = .ok ()) :
    writerStep t w ev l = (.ok (), targetEvent t ev) := by
  cases t with
  | none => rfl
  | some y => simp [writerStep, targetEvent, h y rfl]

lemma writerStep_err_of (x : String) (w : String → Except Error Unit)
    (ev : String → Event) (l : String) (e : Error)
    (he : w x = .error e) :
    writerStep (some x) w ev l = (.error (chainErr l e), [ev x]) := by
  simp [writerStep, he]

lemma targetEvent_pred (t : Option String) (ev : String → Event)
    (q : Event → Bool) (h : ∀ y, q (ev y) = false) :
    ∀ x ∈ targetEvent t ev, q x = false := by
  cases t with
  | none => simp [targetEvent]
  | some y => simp [targetEvent, h y]

/-- Claim C1 (corrected): the four writers run in the fixed source order
attributes, ssh keys, hostname, network units, and the run stops at the
first writer failure, whichever of the four writers it is: when a
configured writer fails after all earlier configured writers succeeded,
its error — wrapped with its stage label — is the run's only reported
error, the trace is exactly the provider construction, the earlier
configured writes in order, and the failing write, and no later writer is
attempted; a provider construction/fetch failure aborts the run before any
writer is attempted. -/
theorem run_short_circuits_writer_failures :
    (∀ (cfg : Config) (o : Oracle) (p : String) (k : ProviderKind)
        (x : String) (e : Error),
      cfg.provider = some p → fetchMetadataDispatch p = some k →
      o.newProvider k = .ok () →
      cfg.attributes_file = some x →
      o.writeAttributesResult x = .error e →
      run cfg o = (.error (chainErr "writing metadata attributes" e),
        [Event.constructProvider k, Event.writeAttributes x]) ∧
      ∀ ev ∈ (run cfg o).2, isLaterWriterEvent ev = false) ∧
    (∀ (cfg : Config) (o : Oracle) (p : String) (k : ProviderKind)
        (u : String) (e : Error),
      cfg.provider = some p → fetchMetadataDispatch p = some k →
      o.newProvider k = .ok () →
      (∀ y, cfg.attributes_file = some y →
        o.writeAttributesResult y = .ok ()) →
      cfg.ssh_keys_user = some u →
      o.writeSshKeysResult u = .error e →
      run cfg o = (.error (chainErr "writing ssh keys" e),
        Event.constructProvider k ::
          (targetEvent cfg.attributes_file Event.writeAttributes ++
            [Event.writeSshKeys u])) ∧
      ∀ ev ∈ (run cfg o).2, isWriterEventAfterSsh ev = false) ∧
    (∀ (cfg : Config) (o : Oracle) (p : String) (k : ProviderKind)
        (x : String) (e : Error),
      cfg.provider = some p → fetchMetadataDispatch p = some k →
      o.newProvider k = .ok () →
      (∀ y, cfg.attributes_file = some y →
        o.writeAttributesResult y = .ok ()) →
      (∀ y, cfg.ssh_keys_user = some y →
        o.writeSshKeysResult y = .ok ()) →
      cfg.hostname_file = some x →
      o.writeHostnameResult x = .error e →
      run cfg o = (.error (chainErr "writing hostname" e),
        Event.constructProvider k ::
          (targetEvent cfg.attributes_file Event.writeAttributes ++
            (targetEvent cfg.ssh_keys_user Event.writeSshKeys ++
              [Event.writeHostname x]))) ∧
      ∀ ev ∈ (run cfg o).2, isWriterEventAfterHostname ev = false) ∧
    (∀ (cfg : Config) (o : Oracle) (p : String) (k : ProviderKind)
        (d : String) (e : Error),
      cfg.provider = some p → fetchMetadataDispatch p = some k →
      o.newProvider k = .ok () →
      (∀ y, cfg.attributes_file = some y →
        o.writeAttributesResult y = .ok ()) →
      (∀ y, cfg.ssh_keys_user = some y →
        o.writeSshKeysResult y = .ok ()) →
      (∀ y, cfg.hostname_file = some y →
        o.writeHostnameResult y = .ok ()) →
      cfg.network_units_dir = some d →
      o.writeNetworkUnitsResult d = .error e →
      run cfg o = (.error (chainErr "writing network units" e),
        Event.constructProvider k ::
          (targetEvent cfg.attributes_file Event.writeAttributes ++
            (targetEvent cfg.ssh_keys_user Event.writeSshKeys ++
              (targetEvent cfg.hostname_file Event.writeHostname ++
                [Event.writeNetworkUnits d]))))) ∧
    (∀ (cfg : Config) (o : Oracle) (p : String) (k : ProviderKind) (e : Error),
      cfg.provider = some p → fetchMetadataDispatch p = some k →
      o.newProvider k = .error e →
      run cfg o = (.error (chainErr "fetching metadata from provider" e),
        [Event.constructProvider k]) ∧
      ∀ ev ∈ (run cfg o).2, isWriterEvent ev = false) := by
  refine ⟨?_, ?_, ?_, ?_, ?_⟩
  · intro cfg o p k x e hp hk hn hx he
    have hrw : runWriters cfg o =
        (.error (chainErr "writing metadata attributes" e),
         [Event.writeAttributes x]) := by
      simp [runWriters, writerStep, hx, he, andThen]
    have ha : run cfg o =
        (.error (chainErr "writing metadata attributes" e),
         [Event.constructProvider k, Event.writeAttributes x]) := by
      rw [run_eq_of_fetch_ok cfg o p k hp hk hn, hrw]
    refine ⟨ha, ?_⟩
    intro ev hev
    rw [ha] at hev
    simp at hev
    rcases hev with rfl | rfl <;> rfl
  · intro cfg o p k u e hp hk hn hA hu he
    have h1 := writerStep_ok_of cfg.attributes_file o.writeAttributesResult
      Event.writeAttributes "writing metadata attributes" hA
    have h2 := writerStep_err_of u o.writeSshKeysResult Event.writeSshKeys
      "writing ssh keys" e he
    have hrw : runWriters cfg o = (.error (chainErr "writing ssh keys" e),
        targetEvent cfg.attributes_file Event.writeAttributes ++
          [Event.writeSshKeys u]) := by
      simp [runWriters, h1, hu, h2, andThen_ok, andThen_err]
    have ha : run cfg o = (.error (chainErr "writing ssh keys" e),
        Event.constructProvider k ::
          (targetEvent cfg.attributes_file Event.writeAttributes ++
            [Event.writeSshKeys u])) := by
      rw [run_eq_of_fetch_ok cfg o p k hp hk hn, hrw]
    refine ⟨ha, ?_⟩
    intro ev hev
    rw [ha] at hev
    simp at hev
    rcases hev with rfl | hev | rfl
    · rfl
    · exact targetEvent_pred _ _ _ (fun y => rfl) ev hev
    · rfl
  · intro cfg o p k x e hp hk hn hA hS hx he
    have h1 := writerStep_ok_of cfg.attributes_file o.writeAttributesResult
      Event.writeAttributes "writing metadata attributes" hA
    have h2 := writerStep_ok_of cfg.ssh_keys_user o.writeSshKeysResult
      Event.writeSshKeys "writing ssh keys" hS
    have h3 := writerStep_err_of x o.writeHostnameResult Event.writeHostname
      "writing hostname" e he
    have hrw : runWriters cfg o = (.error (chainErr "writing hostname" e),
        targetEvent cfg.attributes_file Event.writeAttributes ++
          (targetEvent cfg.ssh_keys_user Event.writeSshKeys ++
            [Event.writeHostname x])) := by
      simp [runWriters, h1, h2, hx, h3, andThen_ok, andThen_err]
    have ha : run cfg o = (.error (chainErr "writing hostname" e),
        Event.constructProvider k ::
          (targetEvent cfg.attributes_file Event.writeAttributes ++
            (targetEvent cfg.ssh_keys_user Event.writeSshKeys ++
              [Event.writeHostname x]))) := by
      rw [run_eq_of_fetch_ok cfg o p k hp hk hn, hrw]
    refine ⟨ha, ?_⟩
    intro ev hev
    rw [ha] at hev
    simp at hev
    rcases hev with rfl | hev | hev | rfl
    · rfl
    · exact targetEvent_pred _ _ _ (fun y => rfl) ev hev
    · exact targetEvent_pred _ _ _ (fun y => rfl) ev hev
    · rfl
  · intro cfg o p k d e hp hk hn hA hS hH hd he
    have h1 := writerStep_ok_of cfg.attributes_file o.writeAttributesResult
      Event.writeAttributes "writing metadata attributes" hA
    have h2 := writerStep_ok_of cfg.ssh_keys_user o.writeSshKeysResult
      Event.writeSshKeys "writing ssh keys" hS
    have h3 := writerStep_ok_of cfg.hostname_file o.writeHostnameResult
      Event.writeHostname "writing hostname" hH
    have h4 := writerStep_err_of d o.writeNetworkUnitsResult
      Event.writeNetworkUnits "writing network units" e he
    have hrw : runWriters cfg o =
        (.error (chainErr "writing network units" e),
         targetEvent cfg.attributes_file Event.writeAttributes ++
           (targetEvent cfg.ssh_keys_user Event.writeSshKeys ++
             (targetEvent cfg.hostname_file Event.writeHostname ++
               [Event.writeNetworkUnits d]))) := by
      simp [runWriters, h1, h2, h3, hd, h4, andThen_ok, andThen_err]
    rw [run_eq_of_fetch_ok cfg o p k hp hk hn, hrw]
  · intro cfg o p k e hp hk hn
    have ha := run_eq_of_fetch_err cfg o p k e hp hk hn
    refine ⟨ha, ?_⟩
    intro ev hev
    rw [ha] at hev
    simp at hev
    subst hev
    rfl

/-- Witness for the amended C1: each of the attributes, ssh-keys, hostname
and network-units writers failing first at a concrete configuration, plus a
concrete provider construction failure. -/
theorem run_short_circuits_writer_failures_witness :
    run configAttrSsh failingWritersOracle =
      (.error (chainErr "writing metadata attributes" attrWriteFailure),
       [Event.constructProvider ProviderKind.ec2,
        Event.writeAttributes "/run/metadata/coreos"]) ∧
    run configAttrSsh failingSshOracle =
      (.error (chainErr "writing ssh keys" sshWriteFailure),
       Event.constructProvider ProviderKind.ec2 ::
         (targetEvent configAttrSsh.attributes_file Event.writeAttributes ++
           [Event.writeSshKeys "core"])) ∧
    run configAllTargets failingHostnameOracle =
      (.error (chainErr "writing hostname" hostnameWriteFailure),
       Event.constructProvider ProviderKind.ec2 ::
         (targetEvent configAllTargets.attributes_file
             Event.writeAttributes ++
           (targetEvent configAllTargets.ssh_keys_user Event.writeSshKeys ++
             [Event.writeHostname "/etc/hostname"]))) ∧
    run configAllTargets failingNetworkOracle =
      (.error (chainErr "writing network units" networkWriteFailure),
       Event.constructProvider ProviderKind.ec2 ::
         (targetEvent configAllTargets.attributes_file
             Event.writeAttributes ++
           (targetEvent configAllTargets.ssh_keys_user Event.writeSshKeys ++
             (targetEvent configAllTargets.hostname_file
                 Event.writeHostname ++
               [Event.writeNetworkUnits "/run/systemd/network"])))) ∧
    run configAttrSsh failingFetchOracle =
      (.error (chainErr "fetching metadata from provider" fetchFailure),
       [Event.constructProvider ProviderKind.ec2]) :=
  ⟨(run_short_circuits_writer_failures.1 configAttrSsh failingWritersOracle
      "ec2" ProviderKind.ec2 "/run/metadata/coreos" attrWriteFailure
      rfl (by decide) rfl rfl rfl).1,
   (run_short_circuits_writer_failures.2.1 configAttrSsh failingSshOracle
      "ec2" ProviderKind.ec2 "core" sshWriteFailure
      rfl (by decide) rfl (fun y _ => rfl) rfl rfl).1,
   (run_short_circuits_writer_failures.2.2.1 configAllTargets
      failingHostnameOracle "ec2" ProviderKind.ec2 "/etc/hostname"
      hostnameWriteFailure rfl (by decide) rfl (fun y _ => rfl)
      (fun y _ => rfl) rfl rfl).1,
   run_short_circuits_writer_failures.2.2.2.1 configAllTargets
      failingNetworkOracle "ec2" ProviderKind.ec2 "/run/systemd/network"
      networkWriteFailure rfl (by decide) rfl (fun y _ => rfl)
      (fun y _ => rfl) (fun y _ => rfl) rfl rfl,
   (run_short_circuits_writer_failures.2.2.2.2 configAttrSsh
      failingFetchOracle "ec2" ProviderKind.ec2 fetchFailure
      rfl (by decide) rfl).1⟩

/-- Counterexample to claim C5: the missing-provider error returned by
`run` carries no stage label at all — its context chain is empty. -/
theorem run_error_without_stage_label_counterexample :
    (run configEmpty okOracle).1 = .error missingProviderError ∧
    missingProviderError.contexts = [] ∧
    wrappedWithStage missingProviderError = false :=
  ⟨rfl, rfl, rfl⟩

/-- Claim C5 (corrected): every error returned by `run` is either the
missing-provider configuration error (which is raised by `bail!` with no
stage context) or is chained — not replaced — with one of the six stage
labels as its outermost context. -/
theorem run_errors_stage_labelled (cfg : Config) (o : Oracle) (e : Error)
    (h : (run cfg o).1 = .error e) :
    e = missingProviderError ∨ wrappedWithStage e = true := by
  rw [run] at h
  rcases hinit : init cfg o with ⟨ri, tri⟩
  rw [hinit] at h
  cases ri with
  | error e1 =>
    simp at h
    right
    rw [← h]
    exact wrappedWithStage_chainErr _ _ (by decide)
  | ok config =>
    cases hcp : config.provider with
    | none =>
      simp [hcp] at h
      exact Or.inl h.symm
    | some p =>
      rcases hf : fetch_metadata o p with ⟨rf, trf⟩
      cases rf with
      | error e2 =>
        simp [hcp, hf] at h
        right
        rw [← h]
        exact wrappedWithStage_chainErr _ _ (by decide)
      | ok u =>
        rcases hw : runWriters config o with ⟨rw_, trw⟩
        simp [hcp, hf, hw] at h
        right
        exact runWriters_error config o e (by rw [hw]; simpa using h)

/-- Witness for the amended C5 at a concrete fetch failure. -/
theorem run_errors_stage_labelled_witness :
    chainErr "fetching metadata from provider" fetchFailure =
        missingProviderError ∨
    wrappedWithStage
        (chainErr "fetching metadata from provider" fetchFailure) = true :=
  run_errors_stage_labelled configAttrSsh failingFetchOracle
    (chainErr "fetching metadata from provider" fetchFailure) rfl

/-- Claim C6 (confirmed): an omitted output target means its writer is never
invoked (no corresponding write event ever appears in the trace), and
omission is success: with a constructible provider and all four targets
omitted, the run succeeds. -/
theorem omitted_targets_skip_writers (cfg : Config) (o : Oracle) :
    (cfg.attributes_file = none →
      ∀ x, Event.writeAttributes x ∉ (run cfg o).2) ∧
    (cfg.ssh_keys_user = none →
      ∀ x, Event.writeSshKeys x ∉ (run cfg o).2) ∧
    (cfg.hostname_file = none →
      ∀ x, Event.writeHostname x ∉ (run cfg o).2) ∧
    (cfg.network_units_dir = none →
      ∀ x, Event.writeNetworkUnits x ∉ (run cfg o).2) ∧
    (∀ p k, cfg.provider = some p → fetchMetadataDispatch p = some k →
      o.newProvider k = .ok () → cfg.attributes_file = none →
      cfg.ssh_keys_user = none → cfg.hostname_file = none →
      cfg.network_units_dir = none → (run cfg o).1 = .ok ()) := by
  refine ⟨?_, ?_, ?_, ?_, ?_⟩
  · intro hn x hmem
    rcases run_mem cfg o _ hmem with h | ⟨k, h⟩ | ⟨y, hy, h⟩ | ⟨y, hy, h⟩ |
      ⟨y, hy, h⟩ | ⟨y, hy, h⟩ <;> simp_all
  · intro hn x hmem
    rcases run_mem cfg o _ hmem with h | ⟨k, h⟩ | ⟨y, hy, h⟩ | ⟨y, hy, h⟩ |
      ⟨y, hy, h⟩ | ⟨y, hy, h⟩ <;> simp_all
  · intro hn x hmem
    rcases run_mem cfg o _ hmem with h | ⟨k, h⟩ | ⟨y, hy, h⟩ | ⟨y, hy, h⟩ |
      ⟨y, hy, h⟩ | ⟨y, hy, h⟩ <;> simp_all
  · intro hn x hmem
    rcases run_mem cfg o _ hmem with h | ⟨k, h⟩ | ⟨y, hy, h⟩ | ⟨y, hy, h⟩ |
      ⟨y, hy, h⟩ | ⟨y, hy, h⟩ <;> simp_all
  · intro p k hp hk hn h1 h2 h3 h4
    have hrw : runWriters cfg o = (.ok (), []) := by
      simp [runWriters, writerStep, h1, h2, h3, h4, andThen]
    rw [run_eq_of_fetch_ok cfg o p k hp hk hn, hrw]

/-- Witness for C6 at a provider-only configuration. -/
theorem omitted_targets_skip_writers_witness :
    Event.writeAttributes "/tmp/a" ∉ (run configProvOnly okOracle).2 ∧
    (run configProvOnly okOracle).1 = .ok () :=
  ⟨(omitted_targets_skip_writers configProvOnly okOracle).1 rfl "/tmp/a",
   (omitted_targets_skip_writers configProvOnly okOracle).2.2.2.2 "ec2"
     ProviderKind.ec2 rfl (by decide) rfl rfl rfl rfl rfl⟩

/-- Claim C9 (confirmed): an explicit provider name takes precedence over
cmdline derivation: whenever the provider is set, `init` passes the
configuration through unchanged with no cmdline read — even if the cmdline
flag is also set — and the whole run never reads the cmdline file; the file
is consulted exactly when the provider is absent and the flag is set. -/
theorem explicit_provider_overrides_cmdline :
    (∀ (cfg : Config) (o : Oracle) (p : String), cfg.provider = some p →
      init cfg o = (.ok cfg, []) ∧
      Event.readCmdline ∉ (run cfg o).2) ∧
    (∀ (cfg : Config) (o : Oracle), cfg.provider = none →
      cfg.cmdline = true → (init cfg o).2 = [Event.readCmdline]) := by
  constructor
  · intro cfg o p hp
    refine ⟨init_of_provider_some cfg o p hp, ?_⟩
    intro hmem
    have htrf : ∀ ev ∈ (fetch_metadata o p).2,
        ∃ k, ev = Event.constructProvider k := by
      rcases fetch_trace o p with h' | ⟨k, h'⟩ <;> rw [h'] <;> intro ev hev <;>
        simp_all
    rcases run_trace_of_provider_some cfg o p hp with ht | ht
    · rw [ht] at hmem
      obtain ⟨k, hk⟩ := htrf _ hmem
      simp at hk
    · rw [ht] at hmem
      rcases List.mem_append.mp hmem with h | h
      · obtain ⟨k, hk⟩ := htrf _ h
        simp at hk
      · rcases runWriters_mem cfg o _ h with ⟨y, hy, h'⟩ | ⟨y, hy, h'⟩ |
          ⟨y, hy, h'⟩ | ⟨y, hy, h'⟩ <;> simp at h'
  · intro cfg o hn hc
    rw [init]
    simp only [hn, hc, Option.isNone_none, Bool.and_self, if_true]
    rcases hg : get_oem o with ⟨rg, trg⟩
    have htrg : trg = [Event.readCmdline] := by
      rw [get_oem] at hg
      exact ((Prod.mk.injEq _ _ _ _).mp hg).2.symm
    cases rg <;> simp [htrg]

/-- Witness for C9: with an explicit provider and the cmdline flag both
set, the cmdline file is not read; with no provider and the flag set, it
is. -/
theorem explicit_provider_overrides_cmdline_witness :
    (init configCmdlineBoth okOracle = (.ok configCmdlineBoth, []) ∧
      Event.readCmdline ∉ (run configCmdlineBoth okOracle).2) ∧
    (init configCmdlineOnly okOracle).2 = [Event.readCmdline] :=
  ⟨explicit_provider_overrides_cmdline.1 configCmdlineBoth okOracle "gce" rfl,
   explicit_provider_overrides_cmdline.2 configCmdlineOnly okOracle rfl rfl⟩

end CoreosMetadata
